import Mathlib

/-!
Shallow embedding of the `tahott/terminal-ui` repository (the clock/timezone
tab demo in `src/main.rs` plus the configuration loader in `src/configs/`).

Rust `usize` values are modelled as `Nat`; the `f64` progress fields are
modelled as `Rat` (the Rust constants `0.1`, `0.167`, `0.00166667` are taken
at their decimal value). Fallible Rust code (`io::Result`, the config
`Result`) is modelled with `Except`. The ambient wall clock read through
`chrono::Utc::now()` is passed as an explicit parameter (Unix seconds).
-/

/-- The application state of `src/main.rs` (`struct App`): the tab titles,
the selected tab index, and three gauge progress values. -/
structure App where
  titles : List String
  index : Nat
  progress_milis : Rat
  progress_sec : Rat
  progress_min : Rat
deriving DecidableEq

/-- `App::new` from `src/main.rs`. The three numeric arguments embed the
components of `Utc::now()` that the constructor reads:
`timestamp_subsec_millis()`, `second()` and `minute()`. -/
def App.new (subsecMillis second minute : Nat) : App :=
  { titles := ["Seoul", "New York", "Taipei", "London"]
    index := 0
    progress_milis := (subsecMillis : Rat) * (1 / 10)
    progress_sec := (second : Rat) / 60 * 100
    progress_min := (minute : Rat) / 60 * 100 }

/-- `App::next` from `src/main.rs`: `index = (index + 1) % titles.len()`. -/
def App.next (a : App) : App :=
  { a with index := (a.index + 1) % a.titles.length }

/-- `App::previous` from `src/main.rs`: decrement the index, wrapping from
`0` to `titles.len() - 1`. -/
def App.previous (a : App) : App :=
  { a with index := if 0 < a.index then a.index - 1 else a.titles.length - 1 }

/-- `App::on_tick` from `src/main.rs`: advance each progress gauge and reset
it to `0.0` once it exceeds `100.0`. -/
def App.on_tick (a : App) : App :=
  let m := a.progress_milis + 10
  let m := if 100 < m then 0 else m
  let s := a.progress_sec + 167 / 1000
  let s := if 100 < s then 0 else s
  let mn := a.progress_min + 166667 / 100000000
  let mn := if 100 < mn then 0 else mn
  { a with progress_milis := m, progress_sec := s, progress_min := mn }

/-- The key codes distinguished by `run_app`'s `match key.code`, plus a few
of the other `crossterm::event::KeyCode` variants (all of which fall into the
wildcard arm of the source). -/
inductive KeyCode where
  | Char (c : Char)
  | Left
  | Right
  | Up
  | Down
  | Enter
  | Esc
deriving DecidableEq

/-- Outcome of one key event inside `run_app`'s loop: either the function
returns `Ok(())` (quit) or the loop continues with an updated `App`. -/
inductive StepResult where
  | quit
  | cont (a : App)
deriving DecidableEq

/-- The key dispatch of `run_app` (`src/main.rs` lines 110-115):
`Char('q')` returns from the loop, `Right` calls `app.next()`, `Left` calls
`app.previous()`, and every other key code is a no-op. -/
def handleKey (k : KeyCode) (a : App) : StepResult :=
  match k with
  | .Char c => if c = 'q' then .quit else .cont a
  | .Right => .cont a.next
  | .Left => .cont a.previous
  | _ => .cont a

/-- The tick interval of `main` (`src/main.rs` line 76):
`Duration::from_millis(100)`, in milliseconds. -/
def tick_rate_millis : Nat := 100

/-- A fixed sample state: the state `App::new` produces at a clock reading
with zero milliseconds, seconds and minutes, written with literal fields. -/
def app0 : App :=
  { titles := ["Seoul", "New York", "Taipei", "London"]
    index := 0
    progress_milis := 0
    progress_sec := 0
    progress_min := 0 }

/-! ## Configuration loader (`src/configs/`) -/

/-- The error enum of `src/configs/error.rs`. -/
inductive ConfigError where
  | MissingEnv (name : String)
  | WrongFormat (name : String)
deriving DecidableEq

/-- The `Display` impl of `src/configs/error.rs`: `write!(f, "self:?")`
writes the literal text `self:?` (the braces that would interpolate `self`
are absent from the format string), ignoring the value. -/
def ConfigError.display (_ : ConfigError) : String := "self:?"

/-- The config struct of `src/configs/mod.rs`. -/
structure Config where
  MONGO_URI : String
deriving DecidableEq

/-- A process environment: maps a variable name to its value when the
variable is set (`std::env::var` succeeding). -/
def Env : Type := String → Option String

/-- `get_env` from `src/configs/mod.rs`: `env::var(name)` mapped to
`Error::MissingEnv(name)` on failure. -/
def get_env (env : Env) (name : String) : Except ConfigError String :=
  match env name with
  | some v => .ok v
  | none => .error (.MissingEnv name)

/-- `Config::load_from_env` from `src/configs/mod.rs`: builds the config
from `get_env("MONGO_URI")?`. -/
def Config.load_from_env (env : Env) : Except ConfigError Config :=
  match get_env env "MONGO_URI" with
  | .ok v => .ok { MONGO_URI := v }
  | .error e => .error e

/-- An environment in which `MONGO_URI` is set to the empty string and
nothing else is set. -/
def envEmptyMongo : Env :=
  fun n => if n = "MONGO_URI" then some "" else none

/-- An environment in which no variable is set. -/
def envUnset : Env := fun _ => none

/-! ## `main`'s error flow (`src/main.rs` lines 67-94) -/

/-- The fallible terminal operations `main` performs around `run_app`, each
modelled by its result (`Ok(())` or an error message). -/
structure TermIO where
  enableRaw : Except String Unit
  enterAlt : Except String Unit
  newTerminal : Except String Unit
  disableRaw : Except String Unit
  leaveAlt : Except String Unit
  showCursor : Except String Unit

/-- The result of `main` as a function of the terminal operations and of
`run_app`'s result: each setup/restore step is propagated with `?`, while
`run_app`'s error is only printed (`if let Err(err) = res { println! }`)
before `main` returns `Ok(())`. -/
def mainModel (io : TermIO) (res : Except String Unit) : Except String Unit := do
  io.enableRaw
  io.enterAlt
  io.newTerminal
  io.disableRaw
  io.leaveAlt
  io.showCursor
  match res with
  | .error _ => pure ()
  | .ok _ => pure ()

/-- A run in which every terminal operation succeeds. -/
def ioAllOk : TermIO :=
  { enableRaw := .ok (), enterAlt := .ok (), newTerminal := .ok ()
    disableRaw := .ok (), leaveAlt := .ok (), showCursor := .ok () }

/-! ## The renderer `ui` (`src/main.rs` lines 125-186)

`ui` formats `Utc::now()` in four IANA zones through `chrono`/`chrono_tz`.
Those external libraries are embedded here for the four zones the demo uses:
Seoul and Taipei are fixed offsets; New York and London follow the modern
(post-2007 US, post-1996 EU) daylight-saving rules, which is the range the
demo runs in. Time is Unix seconds (`Int`). -/

/-- The four time zones named in `src/main.rs`. -/
inductive Tz where
  | Seoul
  | NewYork
  | Taipei
  | London
deriving DecidableEq

/-- Civil date `(year, month, day)` of a day count since 1970-01-01
(proleptic Gregorian; Howard Hinnant's `civil_from_days`). -/
def civilFromDays (z0 : Int) : Int × Int × Int :=
  let z := z0 + 719468
  let era := z.fdiv 146097
  let doe := z - era * 146097
  let yoe := (doe - doe.fdiv 1460 + doe.fdiv 36524 - doe.fdiv 146097).fdiv 365
  let y := yoe + era * 400
  let doy := doe - (365 * yoe + yoe.fdiv 4 - yoe.fdiv 100)
  let mp := (5 * doy + 2).fdiv 153
  let d := doy - (153 * mp + 2).fdiv 5 + 1
  let m := mp + (if mp < 10 then 3 else -9)
  (y + (if m ≤ 2 then 1 else 0), m, d)

/-- Day count since 1970-01-01 of a civil date (`days_from_civil`). -/
def daysFromCivil (y0 m d : Int) : Int :=
  let y := y0 - (if m ≤ 2 then 1 else 0)
  let era := y.fdiv 400
  let yoe := y - era * 400
  let doy := (153 * (m + (if 2 < m then -3 else 9)) + 2).fdiv 5 + d - 1
  let doe := yoe * 365 + yoe.fdiv 4 - yoe.fdiv 100 + doy
  era * 146097 + doe - 719468

/-- Weekday of a day count, `0` = Sunday (1970-01-01 was a Thursday). -/
def weekday (days : Int) : Int := (days + 4).emod 7

/-- Day count of the second Sunday of March of a year (US DST start day). -/
def nySecondSundayMarch (y : Int) : Int :=
  let first := daysFromCivil y 3 1
  first + (7 - weekday first).emod 7 + 7

/-- Day count of the first Sunday of November of a year (US DST end day). -/
def nyFirstSundayNov (y : Int) : Int :=
  let first := daysFromCivil y 11 1
  first + (7 - weekday first).emod 7

/-- UTC offset of America/New_York at a Unix time: EDT (−4 h) between
2:00 EST on the second Sunday of March (07:00 UTC) and 2:00 EDT on the first
Sunday of November (06:00 UTC), EST (−5 h) otherwise. -/
def nyOffset (t : Int) : Int :=
  let y := (civilFromDays (t.fdiv 86400)).1
  let start := nySecondSundayMarch y * 86400 + 7 * 3600
  let stop := nyFirstSundayNov y * 86400 + 6 * 3600
  if start ≤ t ∧ t < stop then -4 * 3600 else -5 * 3600

/-- Day count of the last Sunday of March of a year (UK DST start day). -/
def londonLastSundayMarch (y : Int) : Int :=
  let last := daysFromCivil y 3 31
  last - weekday last

/-- Day count of the last Sunday of October of a year (UK DST end day). -/
def londonLastSundayOct (y : Int) : Int :=
  let last := daysFromCivil y 10 31
  last - weekday last

/-- UTC offset of Europe/London at a Unix time: BST (+1 h) between
01:00 UTC on the last Sunday of March and 01:00 UTC on the last Sunday of
October, GMT otherwise. -/
def londonOffset (t : Int) : Int :=
  let y := (civilFromDays (t.fdiv 86400)).1
  let start := londonLastSundayMarch y * 86400 + 3600
  let stop := londonLastSundayOct y * 86400 + 3600
  if start ≤ t ∧ t < stop then 3600 else 0

/-- UTC offset in seconds of each zone at a Unix time. -/
def zoneOffset : Tz → Int → Int
  | .Seoul, _ => 9 * 3600
  | .Taipei, _ => 8 * 3600
  | .NewYork, t => nyOffset t
  | .London, t => londonOffset t

/-- Zero-pad a (nonnegative) number to two digits. -/
def pad2 (n : Int) : String :=
  if n < 10 then "0" ++ toString n else toString n

/-- Zero-pad a (nonnegative) number to four digits. -/
def pad4 (n : Int) : String :=
  if n < 10 then "000" ++ toString n
  else if n < 100 then "00" ++ toString n
  else if n < 1000 then "0" ++ toString n
  else toString n

/-- `now.with_timezone(&zone).format("%Y-%m-%d %H:%M:%S").to_string()` for a
Unix time `now`. -/
def formatInZone (tz : Tz) (now : Int) : String :=
  let t := now + zoneOffset tz now
  let days := t.fdiv 86400
  let secs := t.emod 86400
  let ymd := civilFromDays days
  pad4 ymd.1 ++ "-" ++ pad2 ymd.2.1 ++ "-" ++ pad2 ymd.2.2 ++ " " ++
    pad2 (secs.fdiv 3600) ++ ":" ++ pad2 ((secs.emod 3600).fdiv 60) ++ ":" ++
    pad2 (secs.emod 60)

/-- The title of the inner clock block: `ui`'s `match app.index` over the
four formatted zone strings `kst`, `edt`, `cst`, `bst`; `none` embeds the
`_ => unreachable!()` arm. -/
def innerTitle (a : App) (now : Int) : Option String :=
  match a.index with
  | 0 => some (formatInZone .Seoul now)
  | 1 => some (formatInZone .NewYork now)
  | 2 => some (formatInZone .Taipei now)
  | 3 => some (formatInZone .London now)
  | _ => none

/-- Rust `f64 as u16`: truncate toward zero, saturating at the bounds. -/
def u16OfRat (q : Rat) : Nat :=
  if q < 0 then 0 else min 65535 q.floor.toNat

/-- Rust `f64::round`: round half away from zero. -/
def roundAway (q : Rat) : Int :=
  if 0 ≤ q then (q + 1 / 2).floor else -((-q + 1 / 2).floor)

/-- Rust `i64/f64 as u16` after rounding: saturate an integer at `u16`. -/
def u16OfInt (i : Int) : Nat :=
  if i < 0 then 0 else min 65535 i.toNat

/-- The data content of one rendered frame: the viewport, the styled tab
titles (`split_at(1)` pairs), the selected tab, the three gauge percentages,
and the inner clock title (`none` when the `unreachable!()` arm would run). -/
structure UiFrame where
  width : Nat
  height : Nat
  tabTitles : List (String × String)
  selected : Nat
  gaugeMilisPct : Nat
  gaugeSecPct : Nat
  gaugeMinPct : Nat
  inner : Option String
deriving DecidableEq

/-- The renderer `ui` of `src/main.rs`: a function of the app state, the
viewport size, and the wall clock `now` it reads through `Utc::now()`. -/
def ui (a : App) (width height : Nat) (now : Int) : UiFrame :=
  { width := width
    height := height
    tabTitles := a.titles.map fun t => (t.take 1, t.drop 1)
    selected := a.index
    gaugeMilisPct := u16OfRat a.progress_milis
    gaugeSecPct := u16OfInt (roundAway a.progress_sec)
    gaugeMinPct := u16OfInt (roundAway a.progress_min)
    inner := innerTitle a now }

/-- The invariant of `App` states reached by the demo: the four titles of
`App::new`, and a selected index below their count. -/
def App.Inv (a : App) : Prop :=
  a.titles.length = 4 ∧ a.index < 4

instance (a : App) : Decidable a.Inv := by
  unfold App.Inv
  infer_instance

/-- An environment in which `MONGO_URI` is set to a typical connection
string. -/
def envMongo : Env :=
  fun n => if n = "MONGO_URI" then some "mongodb://localhost:27017" else none

/-! ## Claims -/

/-- C1 (counterexample): with every terminal operation succeeding,
`main` returns `Ok(())` even though `run_app` returned an I/O error — the
error is only printed, so the exit code is `0`. -/
theorem C1_counterexample :
    mainModel ioAllOk (Except.error "run_app I/O error") = Except.ok () := rfl

/-- C1 (amended): whenever the terminal setup and restore operations all
succeed, `main` returns `Ok(())` regardless of `run_app`'s result: a
`run_app` error is printed but swallowed, and a non-`Ok` result can only
come from a failing setup or restore step. -/
theorem C1_main_ok_whenever_terminal_ops_succeed
    (io : TermIO) (res : Except String Unit)
    (h1 : io.enableRaw = .ok ()) (h2 : io.enterAlt = .ok ())
    (h3 : io.newTerminal = .ok ()) (h4 : io.disableRaw = .ok ())
    (h5 : io.leaveAlt = .ok ()) (h6 : io.showCursor = .ok ()) :
    mainModel io res = .ok () := by
  obtain ⟨e1, e2, e3, e4, e5, e6⟩ := io
  dsimp only at h1 h2 h3 h4 h5 h6
  subst h1 h2 h3 h4 h5 h6
  cases res <;> rfl

/-- C1 (witness): the amended theorem applied at an all-successful terminal
run whose `run_app` failed. -/
theorem C1_witness :
    ioAllOk.enableRaw = .ok () ∧
      mainModel ioAllOk (Except.error "boom") = .ok () :=
  ⟨rfl, C1_main_ok_whenever_terminal_ops_succeed ioAllOk (Except.error "boom")
    rfl rfl rfl rfl rfl rfl⟩

/-- C2 (counterexample): with `MONGO_URI` set to the empty string,
`Config::load_from_env` succeeds and stores the empty string — it does not
reject empty values. -/
theorem C2_counterexample :
    Config.load_from_env envEmptyMongo = .ok { MONGO_URI := "" } := rfl

/-- C2 (amended): `Config::load_from_env` fails with
`MissingEnv("MONGO_URI")` exactly when the variable is unset; when it is set
to any string, including the empty string, it returns `Ok` with that string
in the `MONGO_URI` field. -/
theorem C2_load_from_env_missing_or_value (env : Env) :
    (env "MONGO_URI" = none →
      Config.load_from_env env = .error (.MissingEnv "MONGO_URI")) ∧
    ∀ v, env "MONGO_URI" = some v →
      Config.load_from_env env = .ok { MONGO_URI := v } := by
  constructor
  · intro h
    simp [Config.load_from_env, get_env, h]
  · intro v h
    simp [Config.load_from_env, get_env, h]

/-- C2 (witness): the amended theorem applied to the empty environment and
to an environment carrying a connection string. -/
theorem C2_witness :
    Config.load_from_env envUnset = .error (.MissingEnv "MONGO_URI") ∧
      Config.load_from_env envMongo =
        .ok { MONGO_URI := "mongodb://localhost:27017" } :=
  ⟨(C2_load_from_env_missing_or_value envUnset).1 rfl,
   (C2_load_from_env_missing_or_value envMongo).2 "mongodb://localhost:27017" rfl⟩

/-- C3: in `run_app`'s key dispatch, Right cycles the tab index forward
modulo the number of titles, Left cycles it backward wrapping from `0` to
the last title, `'q'` exits the loop, and every other key leaves the state
unchanged. -/
theorem C3_key_dispatch (a : App) (_h : 0 < a.titles.length) :
    handleKey .Right a = .cont { a with index := (a.index + 1) % a.titles.length } ∧
    handleKey .Left a =
      .cont { a with index := if 0 < a.index then a.index - 1 else a.titles.length - 1 } ∧
    handleKey (.Char 'q') a = .quit ∧
    ∀ k : KeyCode, k ≠ .Right → k ≠ .Left → k ≠ .Char 'q' → handleKey k a = .cont a := by
  refine ⟨rfl, rfl, rfl, ?_⟩
  intro k hr hl hq
  cases k <;> simp_all [handleKey]

/-- C3 (witness): the dispatch theorem applied at the sample state. -/
theorem C3_witness :
    0 < app0.titles.length ∧
      handleKey .Right app0 =
        .cont { app0 with index := (app0.index + 1) % app0.titles.length } :=
  ⟨by decide, (C3_key_dispatch app0 (by decide)).1⟩

/-- C4 (counterexample): the `'j'` and `'k'` keys fall into the wildcard arm
of `run_app`'s match and are no-ops; there is no counter in this `App`. -/
theorem C4_counterexample :
    handleKey (.Char 'j') app0 = .cont app0 ∧
      handleKey (.Char 'k') app0 = .cont app0 := ⟨rfl, rfl⟩

/-- C4 (amended): for every state, `Key('j')` and `Key('k')` leave the state
unchanged and continue the loop — this variant has no counter and no
increment/decrement actions. -/
theorem C4_jk_are_noops (a : App) :
    handleKey (.Char 'j') a = .cont a ∧ handleKey (.Char 'k') a = .cont a :=
  ⟨rfl, rfl⟩

/-- C5 (counterexample): `on_tick` changes the state (it advances
`progress_milis` from `0` to `10` at the sample state), so a tick does not
leave every field other than a `refresh_datetime` unchanged — `App` has no
such field, and the progress fields do change. -/
theorem C5_counterexample : app0.on_tick ≠ app0 := by
  intro h
  have h2 := congrArg App.progress_milis h
  simp [App.on_tick, app0] at h2
  norm_num at h2

/-- C5 (amended): `App::on_tick` updates only the three progress fields
(`progress_milis`, `progress_sec`, `progress_min`); the `titles` and `index`
fields are unchanged. There is no `refresh_datetime` field in this state. -/
theorem C5_on_tick_touches_only_progress (a : App) :
    a.on_tick.titles = a.titles ∧ a.on_tick.index = a.index :=
  ⟨rfl, rfl⟩

/-- C6 (counterexample): with the state and viewport fixed, two invocations
of `ui` at different wall-clock instants produce different frames — `ui`
reads `Utc::now()` for the clock title, so it is not a function of state and
viewport alone. -/
theorem C6_counterexample : ui app0 80 24 0 ≠ ui app0 80 24 1 := by
  intro h
  exact absurd (congrArg UiFrame.inner h) (by decide)

/-- C6 (amended): `ui` is deterministic in the state, the viewport size, and
the wall-clock reading; every frame component except the inner clock title
depends only on the state and viewport, while the inner title is computed
from the time read at render time (so identical state and viewport can still
yield different frames). -/
theorem C6_ui_reads_clock_only_for_inner
    (a : App) (w h : Nat) (t1 t2 : Int) :
    (ui a w h t1).width = (ui a w h t2).width ∧
    (ui a w h t1).height = (ui a w h t2).height ∧
    (ui a w h t1).tabTitles = (ui a w h t2).tabTitles ∧
    (ui a w h t1).selected = (ui a w h t2).selected ∧
    (ui a w h t1).gaugeMilisPct = (ui a w h t2).gaugeMilisPct ∧
    (ui a w h t1).gaugeSecPct = (ui a w h t2).gaugeSecPct ∧
    (ui a w h t1).gaugeMinPct = (ui a w h t2).gaugeMinPct ∧
    (ui a w h t1).inner = innerTitle a t1 :=
  ⟨rfl, rfl, rfl, rfl, rfl, rfl, rfl, rfl⟩

/-- C7 (counterexample): the tick interval `main` constructs is not the
250 ms a 4 Hz default would give. -/
theorem C7_counterexample : tick_rate_millis ≠ 250 := by decide

/-- C7 (amended): the tick interval used by the main loop is
`Duration::from_millis(100)`, i.e. 100 ms (10 Hz). -/
theorem C7_tick_rate_is_100ms : tick_rate_millis = 100 := rfl

/-- C8: `App::new` establishes the index invariant (four titles and an index
below four), `next`, `previous` and `on_tick` preserve it, and under it the
renderer's `match app.index` always selects a zone — the `unreachable!()`
arm (`innerTitle = none`) is never executed. -/
theorem C8_index_invariant (ms s mn : Nat) (a : App) (t : Int) :
    (App.new ms s mn).Inv ∧
    (a.Inv → a.next.Inv) ∧
    (a.Inv → a.previous.Inv) ∧
    (a.Inv → a.on_tick.Inv) ∧
    (a.Inv → (innerTitle a t).isSome) := by
  refine ⟨⟨rfl, by simp [App.new]⟩, ?_, ?_, ?_, ?_⟩ <;> rintro ⟨h4, hi⟩
  · exact ⟨h4, by simp [App.next, h4]; omega⟩
  · exact ⟨h4, by simp [App.previous, h4]; split <;> omega⟩
  · exact ⟨h4, hi⟩
  · unfold innerTitle
    interval_cases hv : a.index <;> simp

/-- C8 (witness): the invariant theorem applied at the sample state. -/
theorem C8_witness : app0.Inv ∧ (innerTitle app0 0).isSome :=
  ⟨by decide, (C8_index_invariant 0 0 0 app0 0).2.2.2.2 (by decide)⟩

/-- C9: for every state whose index is a valid position in `titles`,
`next` then `previous` (and `previous` then `next`) restore the original
index. -/
theorem C9_next_previous_inverse (a : App) (h : a.index < a.titles.length) :
    a.next.previous.index = a.index ∧ a.previous.next.index = a.index := by
  constructor
  · simp only [App.next, App.previous]
    rcases Nat.lt_or_ge (a.index + 1) a.titles.length with hl | hg
    · rw [Nat.mod_eq_of_lt hl]
      simp
    · have he : a.index + 1 = a.titles.length := Nat.le_antisymm (Nat.succ_le_of_lt h) hg
      rw [he, Nat.mod_self]
      simp
      omega
  · simp only [App.previous, App.next]
    by_cases h0 : 0 < a.index
    · simp [h0]
      rw [Nat.sub_add_cancel h0, Nat.mod_eq_of_lt h]
    · simp [h0]
      have hz : a.index = 0 := by omega
      rw [Nat.sub_add_cancel (by omega : 1 ≤ a.titles.length), Nat.mod_self, hz]

/-- C9 (witness): the round-trip theorem applied at the sample state. -/
theorem C9_witness :
    app0.index < app0.titles.length ∧ app0.next.previous.index = app0.index :=
  ⟨by decide, (C9_next_previous_inverse app0 (by decide)).1⟩

/-- C10 (counterexample): the `Display` output `"self:?"` has six
characters, not five. -/
theorem C10_counterexample :
    ¬ (ConfigError.display (.MissingEnv "MONGO_URI")).length = 5 := by decide

/-- C10 (amended): the `Display` impl produces the literal six-character
string `"self:?"` for every error value, regardless of the variant and of
the variable name it carries — the message is independent of the name. -/
theorem C10_display_is_constant (n m : String) :
    ConfigError.display (.MissingEnv n) = "self:?" ∧
    ConfigError.display (.WrongFormat m) = "self:?" ∧
    (ConfigError.display (.MissingEnv n)).length = 6 :=
  ⟨rfl, rfl, rfl⟩
